import Mathlib

/-!
Verification of the Dashboard activity tracker (frontend `Dashboard` component).

The tracker is a browser event-loop program: DOM event listeners, `setTimeout`
debounce timers, `setInterval` sampling timers, and fire-and-forget network
calls, all mutating a React state record.  The browser model is single-threaded
and run-to-completion, so we embed the tracker as a deterministic transition
function `step : TrackerState → Ev → TrackerState` over an explicit state
record, where each `Ev` is one run-to-completion callback invocation:
a DOM event, a timer callback firing, or a network response being handled.

Pending `setTimeout` handles are modelled as `Option Nat` deadlines
(milliseconds); `clearTimeout` is setting the field to `none`, and a timer
callback event is a no-op unless its corresponding deadline is pending and due.
`setInterval` timers (active-time tick, idle check, analysis poll) exist
exactly while `isTracking` is true (their effects tear them down otherwise),
so their tick events are guarded on `isTracking`.

Outgoing network traffic is recorded in two logs: `reports` holds every
`POST /api/tracking/event` body issued by `logEvent`, and `calls` holds the
other outgoing requests (analysis poll GET, session DELETE).  Responses and
failures arrive as separate events, matching the `async`/`await` split in the
source.
-/

/-- The `metrics` React state record of the Dashboard component. -/
structure Metrics where
  activeTime : Nat
  scrolls : Nat
  clicks : Nat
  mouseMovements : Nat
  idleTime : Nat
  tabCount : Nat
deriving Repr, DecidableEq

/-- Initial `metrics` value from `useState`. -/
def initialMetrics : Metrics :=
  { activeTime := 0, scrolls := 0, clicks := 0, mouseMovements := 0,
    idleTime := 0, tabCount := 1 }

/-- The drift analysis result fetched from `GET /api/tracking/analysis/{id}`.
`confidence` and `drift_score` are JavaScript numbers used only for display;
we embed them as rationals. -/
structure DriftAnalysisData where
  is_drifting : Bool
  confidence : Rat
  drift_score : Rat
  recommendation : String
  factors : List (String × Bool)
deriving Repr, DecidableEq

/-- A `POST /api/tracking/event` request body as built by `logEvent`:
`{session_id, event_type, data}` with `data` an event-specific mapping of
numeric values (booleans encoded as 0/1). -/
structure Report where
  session_id : String
  event_type : String
  data : List (String × Int)
deriving Repr, DecidableEq

/-- The full state of the Dashboard component: the React state hooks
(`sessionId`, `isTracking`, `metrics`, `driftAnalysis`, `showAlert`), the
closure-local timer state of the effects (`scrollPending` for `scrollTimeout`,
`moveCount`/`movePending` for the mouse-move accumulator and `moveTimeout`,
`idleStartTime`, `alertDismissAt` for the alert auto-dismiss `setTimeout`),
and the logs of outgoing network requests. -/
structure TrackerState where
  sessionId : Option String
  isTracking : Bool
  metrics : Metrics
  driftAnalysis : Option DriftAnalysisData
  showAlert : Bool
  scrollPending : Option Nat
  moveCount : Nat
  movePending : Option Nat
  idleStartTime : Nat
  alertDismissAt : Option Nat
  reports : List Report
  calls : List String
deriving Repr, DecidableEq

/-- The component's state on mount, before any session has started. -/
def initState : TrackerState :=
  { sessionId := none, isTracking := false, metrics := initialMetrics,
    driftAnalysis := none, showAlert := false, scrollPending := none,
    moveCount := 0, movePending := none, idleStartTime := 0,
    alertDismissAt := none, reports := [], calls := [] }

/-- One run-to-completion callback invocation of the component.  Times are
wall-clock milliseconds (`Date.now()` at the moment the callback runs). -/
inductive Ev where
  /-- `startSession` resolved successfully with a new session id. -/
  | startOk (newSessionId : String)
  /-- `startSession` failed; the `catch` only logs. -/
  | startFail
  /-- A `scroll` DOM event at time `now` (listener exists while tracking). -/
  | scroll (now : Nat)
  /-- The 100ms scroll debounce `setTimeout` callback runs at time `now`;
  `scrollY` is `window.scrollY` read at that moment. -/
  | scrollTimer (now : Nat) (scrollY : Int)
  /-- A `click` DOM event with viewport coordinates. -/
  | click (x y : Int)
  /-- A `mousemove` DOM event at time `now` (feeds both the burst
  accumulator and the idle reset listener). -/
  | mouseMove (now : Nat)
  /-- The 500ms mouse-move burst `setTimeout` callback runs at time `now`. -/
  | moveTimer (now : Nat)
  /-- A `keypress` DOM event at time `now` (idle reset listener). -/
  | keypress (now : Nat)
  /-- The 1-second active-time `setInterval` tick. -/
  | activeTimer
  /-- The 5-second idle-check `setInterval` tick at time `now`. -/
  | idleTimer (now : Nat)
  /-- A `visibilitychange` DOM event with the new `document.hidden`. -/
  | visibility (hidden : Bool)
  /-- The 10-second analysis-poll `setInterval` tick: issues the GET. -/
  | analysisTick
  /-- An analysis response arrives (possibly after stop) at time `now`. -/
  | analysisOk (now : Nat) (d : DriftAnalysisData)
  /-- An analysis request failed; the `catch` only logs. -/
  | analysisFail
  /-- A `POST /api/tracking/event` request failed; the `catch` only logs. -/
  | eventRespFail
  /-- The 5-second alert auto-dismiss `setTimeout` callback at time `now`. -/
  | alertTimer (now : Nat)
  /-- `stopTracking` runs; `deleteOk` is the outcome of the best-effort
  session DELETE (its error is caught and only logged). -/
  | stop (deleteOk : Bool)
deriving Repr, DecidableEq

/-- `logEvent(eventType, data)`: returns without effect when `sessionId` is
null, otherwise issues one `POST /api/tracking/event` with the current
session id.  The response is ignored and errors are swallowed, so the only
observable effect is the outgoing request itself. -/
def logEvent (eventType : String) (data : List (String × Int))
    (s : TrackerState) : TrackerState :=
  match s.sessionId with
  | none => s
  | some sid =>
      { s with reports := s.reports ++ [⟨sid, eventType, data⟩],
               calls := s.calls ++ ["POST /api/tracking/event"] }

/-- One run-to-completion transition of the Dashboard component. -/
def step (s : TrackerState) (e : Ev) : TrackerState :=
  match e with
  | .startOk newSessionId =>
      { s with sessionId := some newSessionId, isTracking := true }
  | .startFail => s
  | .scroll now =>
      if s.isTracking then { s with scrollPending := some (now + 100) } else s
  | .scrollTimer now scrollY =>
      match s.scrollPending with
      | some d =>
          if d ≤ now then
            logEvent "scroll" [("scrollY", scrollY)]
              { s with scrollPending := none,
                       metrics :=
                         { s.metrics with scrolls := s.metrics.scrolls + 1 } }
          else s
      | none => s
  | .click x y =>
      if s.isTracking then
        logEvent "click" [("x", x), ("y", y)]
          { s with metrics := { s.metrics with clicks := s.metrics.clicks + 1 } }
      else s
  | .mouseMove now =>
      if s.isTracking then
        { s with moveCount := s.moveCount + 1,
                 movePending := some (now + 500),
                 idleStartTime := now }
      else s
  | .moveTimer _now =>
      match s.movePending with
      | some d =>
          if d ≤ _now then
            if 5 < s.moveCount then
              let s' := logEvent "mousemove" [("count", (s.moveCount : Int))]
                { s with
                    movePending := none,
                    metrics :=
                      { s.metrics with
                          mouseMovements := s.metrics.mouseMovements + 1 } }
              { s' with moveCount := 0 }
            else { s with movePending := none, moveCount := 0 }
          else s
      | none => s
  | .keypress now =>
      if s.isTracking then { s with idleStartTime := now } else s
  | .activeTimer =>
      if s.isTracking then
        { s with metrics :=
            { s.metrics with activeTime := s.metrics.activeTime + 1 } }
      else s
  | .idleTimer now =>
      if s.isTracking then
        if 5000 < now - s.idleStartTime then
          logEvent "idle" [("duration", 5)]
            { s with
                metrics := { s.metrics with idleTime := s.metrics.idleTime + 5 },
                idleStartTime := now }
        else s
      else s
  | .visibility hidden =>
      if s.isTracking then
        logEvent "visibility" [("hidden", if hidden then 1 else 0)] s
      else s
  | .analysisTick =>
      if s.isTracking then
        match s.sessionId with
        | some _ => { s with calls := s.calls ++ ["GET /api/tracking/analysis"] }
        | none => s
      else s
  | .analysisOk now d =>
      let s' := { s with driftAnalysis := some d }
      if d.is_drifting && !s.showAlert then
        { s' with showAlert := true, alertDismissAt := some (now + 5000) }
      else s'
  | .analysisFail => s
  | .eventRespFail => s
  | .alertTimer now =>
      match s.alertDismissAt with
      | some d =>
          if d ≤ now then { s with showAlert := false, alertDismissAt := none }
          else s
      | none => s
  | .stop _deleteOk =>
      let s' :=
        match s.sessionId with
        | some _ => { s with calls := s.calls ++ ["DELETE /api/session"] }
        | none => s
      { s' with isTracking := false, scrollPending := none,
                movePending := none, moveCount := 0 }

/-- Run a list of callback invocations in order. -/
def run (s : TrackerState) : List Ev → TrackerState
  | [] => s
  | e :: es => run (step s e) es

/-- Drive the scroll subsystem over a list of scroll-event times.  Before each
DOM event is delivered, a pending debounce timer whose deadline has passed
fires first (the event loop runs due timer callbacks before later events);
`y` gives `window.scrollY` as a function of time. -/
def scrollRun (y : Nat → Int) (s : TrackerState) : List Nat → TrackerState
  | [] => s
  | t :: ts =>
      let s1 :=
        match s.scrollPending with
        | some d => if d ≤ t then step s (Ev.scrollTimer d (y d)) else s
        | none => s
      scrollRun y (step s1 (Ev.scroll t)) ts

/-- After the events, let the pending scroll debounce timer (if any) fire at
its deadline. -/
def scrollFlush (y : Nat → Int) (s : TrackerState) : TrackerState :=
  match s.scrollPending with
  | some d => step s (Ev.scrollTimer d (y d))
  | none => s

/-- Drive the mouse-move subsystem over a list of move-event times, firing a
due burst timer before each later event. -/
def moveRun (s : TrackerState) : List Nat → TrackerState
  | [] => s
  | t :: ts =>
      let s1 :=
        match s.movePending with
        | some d => if d ≤ t then step s (Ev.moveTimer d) else s
        | none => s
      moveRun (step s1 (Ev.mouseMove t)) ts

/-- After the events, let the pending burst timer (if any) fire at its
deadline. -/
def moveFlush (s : TrackerState) : TrackerState :=
  match s.movePending with
  | some d => step s (Ev.moveTimer d)
  | none => s

/-- A burst for debounce window `w`: consecutive event times are
non-decreasing and strictly less than `w` milliseconds apart. -/
def IsBurst (w : Nat) (ts : List Nat) : Prop :=
  List.Chain' (fun a b => a ≤ b ∧ b - a < w) ts

instance (w : Nat) (ts : List Nat) : Decidable (IsBurst w ts) :=
  inferInstanceAs (Decidable (List.Chain' (fun a b => a ≤ b ∧ b - a < w) ts))

/-- `logEvent` never touches the metrics record. -/
theorem logEvent_metrics (t : String) (d : List (String × Int))
    (s : TrackerState) : (logEvent t d s).metrics = s.metrics := by
  unfold logEvent
  cases s.sessionId <;> rfl

/-- Every transition either leaves the metrics untouched or bumps exactly one
of the five counters by its fixed increment. -/
theorem step_metrics_cases (s : TrackerState) (e : Ev) :
    (step s e).metrics = s.metrics ∨
    (step s e).metrics = { s.metrics with activeTime := s.metrics.activeTime + 1 } ∨
    (step s e).metrics = { s.metrics with scrolls := s.metrics.scrolls + 1 } ∨
    (step s e).metrics = { s.metrics with clicks := s.metrics.clicks + 1 } ∨
    (step s e).metrics = { s.metrics with mouseMovements := s.metrics.mouseMovements + 1 } ∨
    (step s e).metrics = { s.metrics with idleTime := s.metrics.idleTime + 5 } := by
  cases e <;> simp only [step] <;>
    (repeat' split) <;> simp [logEvent_metrics]

/-- Pointwise order on the metrics record. -/
def Metrics.le (m1 m2 : Metrics) : Prop :=
  m1.activeTime ≤ m2.activeTime ∧ m1.scrolls ≤ m2.scrolls ∧
  m1.clicks ≤ m2.clicks ∧ m1.mouseMovements ≤ m2.mouseMovements ∧
  m1.idleTime ≤ m2.idleTime ∧ m1.tabCount ≤ m2.tabCount

/-- Number of fields on which two metrics records differ. -/
def changedFields (m1 m2 : Metrics) : Nat :=
  (if m1.activeTime = m2.activeTime then 0 else 1) +
  (if m1.scrolls = m2.scrolls then 0 else 1) +
  (if m1.clicks = m2.clicks then 0 else 1) +
  (if m1.mouseMovements = m2.mouseMovements then 0 else 1) +
  (if m1.idleTime = m2.idleTime then 0 else 1) +
  (if m1.tabCount = m2.tabCount then 0 else 1)

/-- C7: every counter in the metrics snapshot is monotonically
non-decreasing: every transition of the tracker (event handler, timer tick,
or response handler) adds a non-negative amount to at most one field of the
metrics record and leaves all the other fields unchanged. -/
theorem metrics_monotone_single_field (s : TrackerState) (e : Ev) :
    Metrics.le s.metrics (step s e).metrics ∧
    changedFields s.metrics (step s e).metrics ≤ 1 := by
  rcases step_metrics_cases s e with h | h | h | h | h | h <;>
    rw [h] <;>
    refine ⟨?_, ?_⟩ <;>
    simp [Metrics.le, changedFields]

/-- No transition touches `tabCount`. -/
theorem tabCount_step (s : TrackerState) (e : Ev) :
    (step s e).metrics.tabCount = s.metrics.tabCount := by
  rcases step_metrics_cases s e with h | h | h | h | h | h <;> rw [h]

/-- C10: `tabCount` is initialized to 1 and never mutated: after any sequence
of events from the initial state it is still 1. -/
theorem tabCount_constant (evs : List Ev) :
    (run initState evs).metrics.tabCount = 1 := by
  have key : ∀ (l : List Ev) (s : TrackerState),
      (run s l).metrics.tabCount = s.metrics.tabCount := by
    intro l
    induction l with
    | nil => intro s; rfl
    | cons e es ih =>
        intro s
        rw [run, ih, tabCount_step]
  rw [key]
  rfl

/-- C9: every network-call failure is caught at its call site and leaves the
tracker's observable state unchanged: a failed event report changes nothing,
a failed drift-analysis fetch keeps `driftAnalysis` and `showAlert` at their
prior values, a failed session-start changes nothing, and a failed session
delete behaves exactly like a successful one, still clearing the tracking
flag.  No retry request is issued in any of these cases. -/
theorem network_failures_silent (s : TrackerState) (b : Bool) :
    step s Ev.eventRespFail = s ∧
    step s Ev.analysisFail = s ∧
    step s Ev.startFail = s ∧
    step s (Ev.stop b) = step s (Ev.stop true) ∧
    (step s (Ev.stop b)).isTracking = false := by
  exact ⟨rfl, rfl, rfl, rfl, rfl⟩

/-- The five event types the Dashboard ever posts to
`POST /api/tracking/event`. -/
def allowedEventType (t : String) : Prop :=
  t = "scroll" ∨ t = "click" ∨ t = "mousemove" ∨ t = "idle" ∨ t = "visibility"

/-- C8: every tracking-event report sent to the backend carries the session id
current at the moment it is issued, and its event type is one of exactly
`scroll`, `click`, `mousemove`, `idle`, `visibility`; a transition either
sends no report or appends exactly one such report. -/
theorem reports_wellformed (s : TrackerState) (e : Ev) :
    (step s e).reports = s.reports ∨
    ∃ r : Report, (step s e).reports = s.reports ++ [r] ∧
      allowedEventType r.event_type ∧ s.sessionId = some r.session_id := by
  have hlog : ∀ (t : String) (dd : List (String × Int)) (s' : TrackerState),
      s'.reports = s.reports → s'.sessionId = s.sessionId → allowedEventType t →
      ((logEvent t dd s').reports = s.reports ∨
        ∃ r : Report, (logEvent t dd s').reports = s.reports ++ [r] ∧
          allowedEventType r.event_type ∧ s.sessionId = some r.session_id) := by
    intro t dd s' hr hsid ht
    unfold logEvent
    cases h : s'.sessionId with
    | none => left; exact hr
    | some sid =>
        right
        refine ⟨⟨sid, t, dd⟩, ?_, ht, ?_⟩
        · simp [hr]
        · rw [← hsid, h]
  cases e with
  | startOk sid => left; rfl
  | startFail => left; rfl
  | scroll now =>
      simp only [step]; split <;> (left; rfl)
  | scrollTimer now y =>
      simp only [step]
      split
      · split
        · exact hlog _ _ _ rfl rfl (Or.inl rfl)
        · left; rfl
      · left; rfl
  | click x y =>
      simp only [step]
      split
      · exact hlog _ _ _ rfl rfl (Or.inr (Or.inl rfl))
      · left; rfl
  | mouseMove now =>
      simp only [step]; split <;> (left; rfl)
  | moveTimer now =>
      simp only [step]
      split
      · split
        · split
          · exact hlog _ _ _ rfl rfl (Or.inr (Or.inr (Or.inl rfl)))
          · left; rfl
        · left; rfl
      · left; rfl
  | keypress now =>
      simp only [step]; split <;> (left; rfl)
  | activeTimer =>
      simp only [step]; split <;> (left; rfl)
  | idleTimer now =>
      simp only [step]
      split
      · split
        · exact hlog _ _ _ rfl rfl (Or.inr (Or.inr (Or.inr (Or.inl rfl))))
        · left; rfl
      · left; rfl
  | visibility hidden =>
      simp only [step]
      split
      · exact hlog _ _ _ rfl rfl (Or.inr (Or.inr (Or.inr (Or.inr rfl))))
      · left; rfl
  | analysisTick =>
      simp only [step]
      split
      · split <;> (left; rfl)
      · left; rfl
  | analysisOk now d =>
      simp only [step]
      split <;> (left; rfl)
  | analysisFail => left; rfl
  | eventRespFail => left; rfl
  | alertTimer now =>
      simp only [step]
      split
      · split <;> (left; rfl)
      · left; rfl
  | stop ok =>
      simp only [step]
      split <;> (left; rfl)

/-- C3: at an idle-check tick, if the wall-clock gap since the last recorded
activity (mouse move, key press, or the last idle reset, all of which set
`idleStartTime`) exceeds 5 seconds, then `idleTime` grows by exactly 5, one
`idle` report with duration 5 is posted, and the reference time resets to
`now`; otherwise the tick changes nothing at all. -/
theorem idle_tick_behavior (s : TrackerState) (now : Nat) (sid : String)
    (ht : s.isTracking = true) (hsid : s.sessionId = some sid) :
    (5000 < now - s.idleStartTime →
      step s (Ev.idleTimer now) =
        { s with
            metrics := { s.metrics with idleTime := s.metrics.idleTime + 5 },
            idleStartTime := now,
            reports := s.reports ++ [⟨sid, "idle", [("duration", 5)]⟩],
            calls := s.calls ++ ["POST /api/tracking/event"] }) ∧
    (now - s.idleStartTime ≤ 5000 → step s (Ev.idleTimer now) = s) := by
  constructor
  · intro h
    simp only [step, ht, if_true, h, if_pos]
    unfold logEvent
    simp only [hsid]
  · intro h
    simp only [step, ht, if_true]
    rw [if_neg (by omega)]

/-- C5: a drift analysis result with `is_drifting = true` received while no
alert is showing surfaces exactly one alert and schedules its auto-dismissal
5 seconds later; a second drifting result received while the alert is still
showing does not surface a new alert and does not restart the dismissal
timer, and the scheduled dismissal at the original deadline clears the
alert. -/
theorem drift_alert_once (s : TrackerState) (t t' : Nat)
    (d d' : DriftAnalysisData)
    (h0 : s.showAlert = false) (hd : d.is_drifting = true)
    (hd' : d'.is_drifting = true) (_hlt : t' < t + 5000) :
    (step s (Ev.analysisOk t d)).showAlert = true ∧
    (step s (Ev.analysisOk t d)).alertDismissAt = some (t + 5000) ∧
    (step s (Ev.analysisOk t d)).driftAnalysis = some d ∧
    (step (step s (Ev.analysisOk t d)) (Ev.analysisOk t' d')).showAlert = true ∧
    (step (step s (Ev.analysisOk t d)) (Ev.analysisOk t' d')).alertDismissAt
      = some (t + 5000) ∧
    (step (step (step s (Ev.analysisOk t d)) (Ev.analysisOk t' d'))
        (Ev.alertTimer (t + 5000))).showAlert = false := by
  have h1 : step s (Ev.analysisOk t d) =
      { s with driftAnalysis := some d, showAlert := true,
               alertDismissAt := some (t + 5000) } := by
    simp [step, hd, h0]
  have h2 : step (step s (Ev.analysisOk t d)) (Ev.analysisOk t' d') =
      { s with driftAnalysis := some d', showAlert := true,
               alertDismissAt := some (t + 5000) } := by
    rw [h1]
    simp [step, hd']
  refine ⟨by rw [h1], by rw [h1], by rw [h1], by rw [h2], by rw [h2], ?_⟩
  rw [h2]
  simp [step]

/-- Is this event a successful session start (a new user action)? -/
def Ev.isStartOk : Ev → Bool
  | .startOk _ => true
  | _ => false

/-- Is this event a stop-tracking invocation (a new user action)? -/
def Ev.isStop : Ev → Bool
  | .stop _ => true
  | _ => false

/-- Is this event an arriving analysis response? -/
def Ev.isAnalysisOk : Ev → Bool
  | .analysisOk _ _ => true
  | _ => false

/-- C4: if the session-start request fails, tracking does not start: the
failure itself changes nothing, and afterwards every event other than a new
successful start leaves the component exactly in its initial state — no
timer does anything, no counter changes, and no network request goes out.
Analysis responses are also excluded from the subsequent events: with no
session, no analysis request was ever issued, so none can be in flight. -/
theorem start_failure_inert (evs : List Ev)
    (h : ∀ e ∈ evs, e.isStartOk = false ∧ e.isAnalysisOk = false) :
    step initState Ev.startFail = initState ∧
    run initState evs = initState := by
  have key : ∀ e : Ev, e.isStartOk = false → e.isAnalysisOk = false →
      step initState e = initState := by
    intro e h1 h2
    cases e <;>
      first
        | rfl
        | exact Bool.noConfusion h1
        | exact Bool.noConfusion h2
  have run_eq : ∀ l : List Ev,
      (∀ e ∈ l, e.isStartOk = false ∧ e.isAnalysisOk = false) →
      run initState l = initState := by
    intro l
    induction l with
    | nil => intro _; rfl
    | cons e es ih =>
        intro hl
        rw [run, key e (hl e (List.mem_cons_self e es)).1
              (hl e (List.mem_cons_self e es)).2]
        exact ih fun x hx => hl x (List.mem_cons_of_mem e hx)
  exact ⟨rfl, run_eq evs h⟩

/-- A state in which tracking has stopped: the `isTracking` flag is cleared
(so all interval timers and DOM listeners are gone) and both debounce
timeouts are cleared. -/
def Stopped (s : TrackerState) : Prop :=
  s.isTracking = false ∧ s.scrollPending = none ∧ s.movePending = none

/-- From a stopped state, any event other than a new start or stop (in
particular any in-flight response arriving late) keeps the state stopped and
changes no counter and no network log. -/
theorem stopped_step (s : TrackerState) (e : Ev)
    (hs : Stopped s) (h1 : e.isStartOk = false) (h2 : e.isStop = false) :
    Stopped (step s e) ∧ (step s e).metrics = s.metrics ∧
    (step s e).reports = s.reports ∧ (step s e).calls = s.calls := by
  obtain ⟨ht, hsp, hmp⟩ := hs
  cases e <;>
    first
      | (simp [Ev.isStartOk] at h1; done)
      | (simp [Ev.isStop] at h2; done)
      | exact ⟨⟨ht, hsp, hmp⟩, rfl, rfl, rfl⟩
      | (simp only [step]
         (repeat' split) <;>
           first
             | exact ⟨⟨ht, hsp, hmp⟩, rfl, rfl, rfl⟩
             | simp_all)

/-- C6: stopping tracking clears all timers (the intervals disappear with the
`isTracking` flag and both debounce timeouts are cancelled), the local
tracking state is cleared the same way whether the best-effort session DELETE
succeeded or failed, and afterwards no sequence of remaining events — timer
callbacks, DOM events, or in-flight responses arriving late — ever mutates a
counter or issues another network request (events excluded: a new
user-initiated start or stop). -/
theorem stop_clears_timers (s : TrackerState) (ok : Bool) (evs : List Ev)
    (hevs : ∀ e ∈ evs, e.isStartOk = false ∧ e.isStop = false) :
    (step s (Ev.stop ok)).isTracking = false ∧
    (step s (Ev.stop ok)).scrollPending = none ∧
    (step s (Ev.stop ok)).movePending = none ∧
    step s (Ev.stop false) = step s (Ev.stop true) ∧
    (run (step s (Ev.stop ok)) evs).metrics = (step s (Ev.stop ok)).metrics ∧
    (run (step s (Ev.stop ok)) evs).reports = (step s (Ev.stop ok)).reports ∧
    (run (step s (Ev.stop ok)) evs).calls = (step s (Ev.stop ok)).calls := by
  have inv : ∀ (l : List Ev) (u : TrackerState), Stopped u →
      (∀ e ∈ l, e.isStartOk = false ∧ e.isStop = false) →
      (run u l).metrics = u.metrics ∧ (run u l).reports = u.reports ∧
        (run u l).calls = u.calls := by
    intro l
    induction l with
    | nil => intro u _ _; exact ⟨rfl, rfl, rfl⟩
    | cons e es ih =>
        intro u hu hl
        obtain ⟨hst, hm, hr, hc⟩ :=
          stopped_step u e hu (hl e (List.mem_cons_self e es)).1
            (hl e (List.mem_cons_self e es)).2
        obtain ⟨im, ir, ic⟩ :=
          ih (step u e) hst fun x hx => hl x (List.mem_cons_of_mem e hx)
        rw [run]
        exact ⟨im.trans hm, ir.trans hr, ic.trans hc⟩
  obtain ⟨im, ir, ic⟩ := inv evs (step s (Ev.stop ok)) ⟨rfl, rfl, rfl⟩ hevs
  exact ⟨rfl, rfl, rfl, rfl, im, ir, ic⟩

/-- A scroll event whose debounce deadline (if any) has not yet passed just
re-arms the timeout: no timer fires before it. -/
theorem scrollRun_cons_noFire (y : Nat → Int) (s : TrackerState) (t : Nat)
    (ts : List Nat) (hp : ∀ d, s.scrollPending = some d → t < d) :
    scrollRun y s (t :: ts) = scrollRun y (step s (Ev.scroll t)) ts := by
  cases hsp : s.scrollPending with
  | none => simp [scrollRun, hsp]
  | some d =>
      have hnd : ¬ d ≤ t := Nat.not_le.mpr (hp d hsp)
      simp [scrollRun, hsp, hnd]

/-- While tracking, a scroll event only re-arms the 100ms debounce. -/
theorem step_scroll (s : TrackerState) (t : Nat) (ht : s.isTracking = true) :
    step s (Ev.scroll t) = { s with scrollPending := some (t + 100) } := by
  simp [step, ht]

/-- Over a burst of scroll events (each within 100ms of the previous), the
debounce timer never becomes due before the next event, so the whole run only
re-arms the timeout, leaving its deadline 100ms past the last event; nothing
else changes. -/
theorem scrollRun_burst (y : Nat → Int) (ts : List Nat) :
    ∀ (t dflt : Nat) (s : TrackerState), s.isTracking = true →
      (∀ d, s.scrollPending = some d → t < d) →
      IsBurst 100 (t :: ts) →
      scrollRun y s (t :: ts) =
        { s with scrollPending := some ((t :: ts).getLastD dflt + 100) } := by
  induction ts with
  | nil =>
      intro t dflt s ht hp _
      rw [scrollRun_cons_noFire y s t [] hp, step_scroll s t ht]
      rfl
  | cons t' ts ih =>
      intro t dflt s ht hp hb
      obtain ⟨htt', hb'⟩ := List.chain'_cons.mp hb
      rw [scrollRun_cons_noFire y s t (t' :: ts) hp, step_scroll s t ht]
      exact ih t' t { s with scrollPending := some (t + 100) } ht
        (fun d hd => by
          simp only [Option.some.injEq] at hd
          omega)
        hb'

/-- A pending debounce timeout fires at its own deadline: the scroll counter
is bumped once and one `scroll` report with the vertical offset read at
firing time goes out. -/
theorem scrollFlush_fire (y : Nat → Int) (u : TrackerState) (L : Nat)
    (sid : String) (hu : u.scrollPending = some L)
    (hsid : u.sessionId = some sid) :
    scrollFlush y u =
      { u with scrollPending := none,
               metrics := { u.metrics with scrolls := u.metrics.scrolls + 1 },
               reports := u.reports ++ [⟨sid, "scroll", [("scrollY", y L)]⟩],
               calls := u.calls ++ ["POST /api/tracking/event"] } := by
  simp only [scrollFlush, hu, step, le_refl, if_true, logEvent, hsid]

/-- C1: for every burst of scroll events — a first scroll at `t`, each later
one within 100ms of the previous — followed by 100ms of quiet, the tracker
increments the scroll counter exactly once and posts exactly one `scroll`
report, carrying the vertical offset at firing time (100ms after the last
scroll of the burst). -/
theorem scroll_debounce_burst (y : Nat → Int) (s : TrackerState)
    (sid : String) (t : Nat) (ts : List Nat)
    (ht : s.isTracking = true) (hsid : s.sessionId = some sid)
    (hp : s.scrollPending = none) (hb : IsBurst 100 (t :: ts)) :
    scrollFlush y (scrollRun y s (t :: ts)) =
      { s with
          scrollPending := none,
          metrics := { s.metrics with scrolls := s.metrics.scrolls + 1 },
          reports := s.reports ++
            [⟨sid, "scroll", [("scrollY", y ((t :: ts).getLastD 0 + 100))]⟩],
          calls := s.calls ++ ["POST /api/tracking/event"] } := by
  rw [scrollRun_burst y ts t 0 s ht
      (fun d hd => by rw [hp] at hd; cases hd) hb]
  exact scrollFlush_fire y _ ((t :: ts).getLastD 0 + 100) sid rfl hsid

/-- A mouse-move event whose burst-timeout deadline (if any) has not yet
passed just feeds the accumulator: no timer fires before it. -/
theorem moveRun_cons_noFire (s : TrackerState) (t : Nat) (ts : List Nat)
    (hp : ∀ d, s.movePending = some d → t < d) :
    moveRun s (t :: ts) = moveRun (step s (Ev.mouseMove t)) ts := by
  cases hmp : s.movePending with
  | none => simp [moveRun, hmp]
  | some d =>
      have hnd : ¬ d ≤ t := Nat.not_le.mpr (hp d hmp)
      simp [moveRun, hmp, hnd]

/-- While tracking, a mouse-move event bumps the accumulator, re-arms the
500ms burst timeout, and resets the idle reference time. -/
theorem step_mouseMove (s : TrackerState) (t : Nat)
    (ht : s.isTracking = true) :
    step s (Ev.mouseMove t) =
      { s with moveCount := s.moveCount + 1,
               movePending := some (t + 500),
               idleStartTime := t } := by
  simp [step, ht]

/-- Over a burst of mouse-move events (each within 500ms of the previous),
the burst timer never becomes due before the next event: the run accumulates
one count per event, leaves the timeout deadline 500ms past the last event,
and moves the idle reference to the last event; nothing else changes. -/
theorem moveRun_burst (ts : List Nat) :
    ∀ (t dflt : Nat) (s : TrackerState), s.isTracking = true →
      (∀ d, s.movePending = some d → t < d) →
      IsBurst 500 (t :: ts) →
      moveRun s (t :: ts) =
        { s with moveCount := s.moveCount + (t :: ts).length,
                 movePending := some ((t :: ts).getLastD dflt + 500),
                 idleStartTime := (t :: ts).getLastD dflt } := by
  induction ts with
  | nil =>
      intro t dflt s ht hp _
      rw [moveRun_cons_noFire s t [] hp, step_mouseMove s t ht]
      rfl
  | cons t' ts ih =>
      intro t dflt s ht hp hb
      obtain ⟨htt', hb'⟩ := List.chain'_cons.mp hb
      rw [moveRun_cons_noFire s t (t' :: ts) hp, step_mouseMove s t ht]
      rw [ih t' t
        { s with moveCount := s.moveCount + 1,
                 movePending := some (t + 500), idleStartTime := t } ht
        (fun d hd => by
          simp only [Option.some.injEq] at hd
          omega)
        hb']
      simp only [TrackerState.mk.injEq, List.length_cons, List.getLastD_cons,
        eq_self_iff_true, true_and, and_true]
      omega

/-- A pending burst timeout fires at its own deadline: if the accumulator
exceeds 5, the burst counter is bumped once and one `mousemove` report with
the accumulated count goes out; otherwise nothing is reported and no counter
changes.  The accumulator is reset to 0 either way. -/
theorem moveFlush_fire (u : TrackerState) (D : Nat) (sid : String)
    (hu : u.movePending = some D) (hsid : u.sessionId = some sid) :
    (5 < u.moveCount →
      moveFlush u =
        { u with
            metrics :=
              { u.metrics with
                  mouseMovements := u.metrics.mouseMovements + 1 },
            reports := u.reports ++
              [⟨sid, "mousemove", [("count", (u.moveCount : Int))]⟩],
            calls := u.calls ++ ["POST /api/tracking/event"],
            moveCount := 0, movePending := none }) ∧
    (u.moveCount ≤ 5 →
      moveFlush u = { u with moveCount := 0, movePending := none }) := by
  constructor
  · intro h
    simp only [moveFlush, hu, step, le_refl, if_true, h, if_pos, logEvent,
      hsid]
  · intro h
    simp only [moveFlush, hu, step, le_refl, if_true]
    rw [if_neg (by omega)]

/-- C2: for every burst of mouse-move events (each within 500ms of the
previous, starting from an empty accumulator) followed by 500ms of quiet, a
`mousemove` report with count equal to the number of accumulated moves goes
out and the burst counter increments by exactly 1 if and only if that count
exceeds 5; otherwise no report is sent and no counter changes.  In both
cases the accumulator is reset to 0 and the timeout is cleared. -/
theorem mousemove_burst_threshold (s : TrackerState) (sid : String)
    (t : Nat) (ts : List Nat) (ht : s.isTracking = true)
    (hsid : s.sessionId = some sid) (hmc : s.moveCount = 0)
    (hmp : s.movePending = none) (hb : IsBurst 500 (t :: ts)) :
    (5 < (t :: ts).length →
      moveFlush (moveRun s (t :: ts)) =
        { s with
            metrics :=
              { s.metrics with
                  mouseMovements := s.metrics.mouseMovements + 1 },
            reports := s.reports ++
              [⟨sid, "mousemove", [("count", ((t :: ts).length : Int))]⟩],
            calls := s.calls ++ ["POST /api/tracking/event"],
            idleStartTime := (t :: ts).getLastD 0,
            moveCount := 0, movePending := none }) ∧
    ((t :: ts).length ≤ 5 →
      moveFlush (moveRun s (t :: ts)) =
        { s with idleStartTime := (t :: ts).getLastD 0,
                 moveCount := 0, movePending := none }) := by
  have hrun := moveRun_burst ts t 0 s ht
    (fun d hd => by rw [hmp] at hd; cases hd) hb
  rw [hmc, Nat.zero_add] at hrun
  have hf := moveFlush_fire
    { s with moveCount := (t :: ts).length,
             movePending := some ((t :: ts).getLastD 0 + 500),
             idleStartTime := (t :: ts).getLastD 0 }
    ((t :: ts).getLastD 0 + 500) sid rfl hsid
  constructor
  · intro h
    rw [hrun, hf.1 h]
  · intro h
    rw [hrun, hf.2 h]

/-- A concrete drifting analysis result used in witnesses. -/
def demoDrift : DriftAnalysisData :=
  { is_drifting := true, confidence := 9/10, drift_score := 72,
    recommendation := "Take a short break", factors := [("rapid_scrolling", true)] }

/-- Witness for C1: a burst of three scrolls at 0ms, 50ms, 120ms from a
freshly started session yields exactly one scroll increment. -/
theorem scroll_debounce_burst_witness :
    (scrollFlush (fun n => (n : Int))
        (scrollRun (fun n => (n : Int))
          (step initState (Ev.startOk "sid")) [0, 50, 120])).metrics.scrolls
      = (step initState (Ev.startOk "sid")).metrics.scrolls + 1 := by
  have h := scroll_debounce_burst (fun n => (n : Int))
    (step initState (Ev.startOk "sid")) "sid" 0 [50, 120] rfl rfl rfl
    (by unfold IsBurst; simp [List.chain'_cons])
  rw [h]

/-- Witness for C2: a burst of six moves yields exactly one burst count. -/
theorem mousemove_burst_threshold_witness :
    (moveFlush (moveRun (step initState (Ev.startOk "sid"))
        [0, 10, 20, 30, 40, 50])).metrics.mouseMovements
      = (step initState (Ev.startOk "sid")).metrics.mouseMovements + 1 := by
  have h := (mousemove_burst_threshold (step initState (Ev.startOk "sid"))
    "sid" 0 [10, 20, 30, 40, 50] rfl rfl rfl rfl
    (by unfold IsBurst; simp [List.chain'_cons])).1 (by decide)
  rw [h]

/-- Witness for C3: a tick 6000ms after the reference adds 5 idle seconds;
a tick 3000ms after changes nothing. -/
theorem idle_tick_behavior_witness :
    (step (step initState (Ev.startOk "sid"))
        (Ev.idleTimer 6000)).metrics.idleTime = 5 ∧
    step (step initState (Ev.startOk "sid")) (Ev.idleTimer 3000)
      = step initState (Ev.startOk "sid") := by
  have h6 := idle_tick_behavior (step initState (Ev.startOk "sid")) 6000
    "sid" rfl rfl
  have h3 := idle_tick_behavior (step initState (Ev.startOk "sid")) 3000
    "sid" rfl rfl
  refine ⟨?_, h3.2 (by decide)⟩
  rw [h6.1 (by decide)]
  decide

/-- Witness for C4: after a failed start, clicks and timer ticks leave the
component exactly in its initial state. -/
theorem start_failure_inert_witness :
    run initState [Ev.click 1 2, Ev.activeTimer, Ev.idleTimer 9000]
      = initState :=
  (start_failure_inert [Ev.click 1 2, Ev.activeTimer, Ev.idleTimer 9000]
    (by decide)).2

/-- Witness for C5: a second drifting result at 3000ms does not restart the
dismissal scheduled at 6000ms, which then clears the alert. -/
theorem drift_alert_once_witness :
    (step (step (step initState (Ev.analysisOk 1000 demoDrift))
        (Ev.analysisOk 3000 demoDrift)) (Ev.alertTimer 6000)).showAlert
      = false := by
  have h := drift_alert_once initState 1000 3000 demoDrift demoDrift rfl rfl
    rfl (by decide)
  exact h.2.2.2.2.2

/-- Witness for C6: after stop (with a failed DELETE), a late analysis
response, an active tick and a scroll leave the metrics unchanged. -/
theorem stop_clears_timers_witness :
    (run (step (step initState (Ev.startOk "sid")) (Ev.stop false))
        [Ev.analysisOk 0 demoDrift, Ev.activeTimer, Ev.scroll 5]).metrics
      = (step (step initState (Ev.startOk "sid")) (Ev.stop false)).metrics := by
  have h := stop_clears_timers (step initState (Ev.startOk "sid")) false
    [Ev.analysisOk 0 demoDrift, Ev.activeTimer, Ev.scroll 5] (by decide)
  exact h.2.2.2.2.1
